import Mathlib

/-!
# GCRA decision engine: a shallow embedding of `src/gcra.rs`

This file embeds the GCRA (Generic Cell Rate Algorithm) decision engine of
the `governor` crate into Lean 4 and proves the specified properties of its
two decision entry points (`Gcra::test_and_update`,
`Gcra::test_n_all_and_update`) and of the negative-decision value
(`NotUntil`).

Time values (`Nanos`, a `u64` count of nanoseconds with saturating
subtraction) and clock-reference instants are modelled as `Nat`; Rust's
`saturating_sub` coincides with truncated `Nat` subtraction, and
`duration_since` between instants saturates at zero by the clock contract.
The keyed storage backend is modelled by the per-key stored value
(`Option Nat`) together with its single atomic read-modify-write primitive
`measure_and_replace`.
-/

namespace Governor

/-- Modelled from the spec: `Nanos::saturating_sub` of the opaque duration
type (`crate::nanos`, not under `src/`): subtraction clamping at zero,
which is exactly truncated subtraction on `Nat`. -/
def Nanos.saturating_sub (a b : Nat) : Nat := a - b

/-- Modelled from the spec: `Reference::duration_since(other)` of the
clock-reference instant type (`crate::clock`, not under `src/`): elapsed
time between instants, saturating at zero. -/
def Instant.duration_since (a b : Nat) : Nat := a - b

/-- Modelled from the spec: the quota configuration (`crate::Quota`, not
under `src/`): a replenishment interval (time cost per cell, in
nanoseconds) and a maximum burst count. In Rust `max_burst` is a
`NonZeroU32`; positivity is carried as a hypothesis where a property needs
it. -/
structure Quota where
  replenish_1_per : Nat
  max_burst : Nat
  deriving DecidableEq, Repr

/-- The decision engine `Gcra`: the per-cell weight `t` and the burst
capacity `tau`, both durations in nanoseconds (from `src/gcra.rs`). -/
structure Gcra where
  t : Nat
  tau : Nat
  deriving DecidableEq, Repr

/-- A negative single-cell rate-limiting outcome (`NotUntil` in
`src/gcra.rs`): the engine that produced it, the computed earliest
conforming elapsed time (stored in the field named `tat`, as in the
source), and the caller-supplied reference origin `start`. -/
structure NotUntil where
  limiter : Gcra
  tat : Nat
  start : Nat
  deriving DecidableEq, Repr

/-- Modelled from the spec: the batch-rejection taxonomy
(`crate::NegativeMultiDecision`, not under `src/`): either the batch can
never fit (carrying the maximum admissible batch size) or it is temporarily
non-conforming (carrying the requested count and a negative-decision
value). -/
inductive NegativeMultiDecision (E : Type) where
  | BatchNonConforming : Nat → E → NegativeMultiDecision E
  | InsufficientCapacity : Nat → NegativeMultiDecision E
  deriving DecidableEq, Repr

/-- Modelled from the spec: the storage backend's single primitive
(`StateStore::measure_and_replace`, not under `src/`): atomically read the
key's stored value (or `none`), apply `f`; on success install the new time
value, on error perform no mutation. The per-key store is modelled by its
stored value `stored : Option Nat`; the result pairs `f`'s verdict with
the post-call stored value. -/
def measure_and_replace {E : Type} (stored : Option Nat)
    (f : Option Nat → Except E (Unit × Nat)) : Except E Unit × Option Nat :=
  match f stored with
  | Except.ok (_, next) => (Except.ok (), some next)
  | Except.error e => (Except.error e, stored)

/-- `NotUntil::earliest_possible`: `start + tat`. -/
def NotUntil.earliest_possible (nu : NotUntil) : Nat :=
  nu.start + nu.tat

/-- `NotUntil::wait_time_from(from)`:
`earliest.duration_since(earliest.min(from))`. -/
def NotUntil.wait_time_from (nu : NotUntil) (fr : Nat) : Nat :=
  let earliest := nu.earliest_possible
  Instant.duration_since earliest (min earliest fr)

/-- `Gcra::new`: derive `t = replenish_1_per` and
`tau = replenish_1_per * max_burst` from the quota. -/
def Gcra.new (quota : Quota) : Gcra :=
  { tau := quota.replenish_1_per * quota.max_burst
    t := quota.replenish_1_per }

/-- `Gcra::starting_state`: the synthesized state for a key with no stored
entry, `t0 + t`. -/
def Gcra.starting_state (g : Gcra) (t0 : Nat) : Nat :=
  t0 + g.t

/-- `Gcra::test_and_update`: the single-cell decision. `start` is the
reference origin, `stored` the key's stored state, `now` the clock
reading. -/
def Gcra.test_and_update (g : Gcra) (start : Nat) (stored : Option Nat)
    (now : Nat) : Except NotUntil Unit × Option Nat :=
  let t0 := Instant.duration_since now start
  let tau := g.tau
  let t := g.t
  measure_and_replace stored (fun tat =>
    let tat := tat.getD (g.starting_state t0)
    let earliest_time := Nanos.saturating_sub tat tau
    if t0 < earliest_time then
      Except.error { limiter := g, tat := earliest_time, start := start }
    else
      Except.ok ((), max tat t0 + t))

/-- `Gcra::test_n_all_and_update`: the all-or-nothing batch decision for
`n` cells (`n` is a `NonZeroU32` in Rust; positivity is a hypothesis where
needed). -/
def Gcra.test_n_all_and_update (g : Gcra) (start : Nat) (n : Nat)
    (stored : Option Nat) (now : Nat) :
    Except (NegativeMultiDecision NotUntil) Unit × Option Nat :=
  let t0 := Instant.duration_since now start
  let tau := g.tau
  let t := g.t
  let additional_weight := t * (n - 1)
  if additional_weight + t > tau then
    (Except.error (NegativeMultiDecision.InsufficientCapacity (tau / t)), stored)
  else
    measure_and_replace stored (fun tat =>
      let tat := tat.getD (g.starting_state t0)
      let earliest_time := Nanos.saturating_sub (tat + additional_weight) tau
      if t0 < earliest_time then
        Except.error (NegativeMultiDecision.BatchNonConforming n
          { limiter := g, tat := earliest_time, start := start })
      else
        Except.ok ((), max tat t0 + t + additional_weight))

/-- Closed form of the single-cell test, shared by the proofs below: the
call is an `if` on `now_elapsed < earliest_time` selecting the rejection
(stored state untouched) or the admission (installing
`max(tat, now_elapsed) + t`). -/
theorem test_and_update_eq (g : Gcra) (start now : Nat)
    (stored : Option Nat) :
    g.test_and_update start stored now =
      (if Instant.duration_since now start <
          Nanos.saturating_sub
            (stored.getD (g.starting_state (Instant.duration_since now start))) g.tau
       then
        (Except.error
          { limiter := g
            tat := Nanos.saturating_sub
              (stored.getD (g.starting_state (Instant.duration_since now start))) g.tau
            start := start }, stored)
       else
        (Except.ok (),
          some (max (stored.getD (g.starting_state (Instant.duration_since now start)))
            (Instant.duration_since now start) + g.t))) := by
  unfold Gcra.test_and_update measure_and_replace
  by_cases h : Instant.duration_since now start <
      Nanos.saturating_sub
        (stored.getD (g.starting_state (Instant.duration_since now start))) g.tau
  · simp [h]
  · simp [h]

/-- Closed form of the batch test when the capacity guard fires. -/
theorem test_n_all_and_update_guard_eq (g : Gcra) (start now : Nat)
    (stored : Option Nat) (n : Nat)
    (hcap : g.tau < g.t * (n - 1) + g.t) :
    g.test_n_all_and_update start n stored now =
      (Except.error (NegativeMultiDecision.InsufficientCapacity (g.tau / g.t)),
        stored) := by
  simp only [Gcra.test_n_all_and_update]
  rw [if_pos hcap]

/-- Closed form of the batch test when the capacity guard passes. -/
theorem test_n_all_and_update_eq (g : Gcra) (start now : Nat)
    (stored : Option Nat) (n : Nat)
    (hcap : g.t * (n - 1) + g.t ≤ g.tau) :
    g.test_n_all_and_update start n stored now =
      (if Instant.duration_since now start <
          Nanos.saturating_sub
            (stored.getD (g.starting_state (Instant.duration_since now start)) +
              g.t * (n - 1)) g.tau
       then
        (Except.error (NegativeMultiDecision.BatchNonConforming n
          { limiter := g
            tat := Nanos.saturating_sub
              (stored.getD (g.starting_state (Instant.duration_since now start)) +
                g.t * (n - 1)) g.tau
            start := start }), stored)
       else
        (Except.ok (),
          some (max (stored.getD (g.starting_state (Instant.duration_since now start)))
            (Instant.duration_since now start) + g.t + g.t * (n - 1)))) := by
  simp only [Gcra.test_n_all_and_update]
  rw [if_neg (not_lt.mpr hcap)]
  unfold measure_and_replace
  by_cases h : Instant.duration_since now start <
      Nanos.saturating_sub
        (stored.getD (g.starting_state (Instant.duration_since now start)) +
          g.t * (n - 1)) g.tau
  · simp [h]
  · simp [h]

/-- C1: the single-cell test reads `tat` from storage (or synthesizes the
starting state), computes `earliest_time = tat.saturating_sub(tau)`, is
conforming iff `now_elapsed ≥ earliest_time`, and on a conforming decision
returns success and installs `tat' = max(tat, now_elapsed) + t`; otherwise
it returns the negative decision carrying `earliest_time` and the
reference origin and leaves the stored state untouched. -/
theorem test_and_update_characterization (g : Gcra) (start now : Nat)
    (stored : Option Nat) :
    g.test_and_update start stored now =
      (if Instant.duration_since now start <
          Nanos.saturating_sub
            (stored.getD (g.starting_state (Instant.duration_since now start))) g.tau
       then
        (Except.error
          { limiter := g
            tat := Nanos.saturating_sub
              (stored.getD (g.starting_state (Instant.duration_since now start))) g.tau
            start := start }, stored)
       else
        (Except.ok (),
          some (max (stored.getD (g.starting_state (Instant.duration_since now start)))
            (Instant.duration_since now start) + g.t))) :=
  test_and_update_eq g start now stored

/-- C2: for `n ≥ 1` with `t*(n-1) + t ≤ tau`, the batch test computes
`additional_weight = t*(n-1)` and
`earliest_time = (tat + additional_weight).saturating_sub(tau)`, is
conforming iff `now_elapsed ≥ earliest_time`, on success installs
`tat' = max(tat, now_elapsed) + t + additional_weight`, and on rejection
returns the batch-non-conforming variant carrying `n` and a negative
decision with that `earliest_time` and the reference origin, leaving the
stored state untouched (all-or-nothing: no partial admission). -/
theorem test_n_all_and_update_characterization (g : Gcra) (start now : Nat)
    (stored : Option Nat) (n : Nat) (_hn : 1 ≤ n)
    (hcap : g.t * (n - 1) + g.t ≤ g.tau) :
    g.test_n_all_and_update start n stored now =
      (if Instant.duration_since now start <
          Nanos.saturating_sub
            (stored.getD (g.starting_state (Instant.duration_since now start)) +
              g.t * (n - 1)) g.tau
       then
        (Except.error (NegativeMultiDecision.BatchNonConforming n
          { limiter := g
            tat := Nanos.saturating_sub
              (stored.getD (g.starting_state (Instant.duration_since now start)) +
                g.t * (n - 1)) g.tau
            start := start }), stored)
       else
        (Except.ok (),
          some (max (stored.getD (g.starting_state (Instant.duration_since now start)))
            (Instant.duration_since now start) + g.t + g.t * (n - 1)))) :=
  test_n_all_and_update_eq g start now stored n hcap

/-- Witness for C2: quota with `t = 2`, `max_burst = 3` (`tau = 6`), a
stored `tat = 100`, `n = 3` at elapsed time 0: the batch is rejected with
`earliest_time = (100 + 4) - 6 = 98` and the stored state is untouched. -/
theorem test_n_all_and_update_characterization_witness :
    (Gcra.new ⟨2, 3⟩).test_n_all_and_update 0 3 (some 100) 0 =
      (Except.error (NegativeMultiDecision.BatchNonConforming 3
        { limiter := Gcra.new ⟨2, 3⟩, tat := 98, start := 0 }), some 100) :=
  (test_n_all_and_update_characterization (Gcra.new ⟨2, 3⟩) 0 0 (some 100) 3
    (by decide) (by decide)).trans (by rfl)

/-- C3: when `t*(n-1) + t > tau`, the batch test fails immediately with
the insufficient-capacity variant carrying `tau / t` (integer division),
for every stored state and every `now` — the stored state is returned
untouched and the error does not depend on either. -/
theorem test_n_all_insufficient_capacity (g : Gcra) (start now : Nat)
    (stored : Option Nat) (n : Nat)
    (hcap : g.tau < g.t * (n - 1) + g.t) :
    g.test_n_all_and_update start n stored now =
      (Except.error (NegativeMultiDecision.InsufficientCapacity (g.tau / g.t)),
        stored) :=
  test_n_all_and_update_guard_eq g start now stored n hcap

/-- Witness for C3: quota `t = 1s` (`10^9` ns), `max_burst = 5`
(`tau = 5s`), a request for `n = 6` cells with an arbitrary stored state
and an arbitrary `now` fails with capacity-impossible carrying maximum
batch size `5`, mutating nothing. -/
theorem test_n_all_insufficient_capacity_witness :
    (Gcra.new ⟨1000000000, 5⟩).test_n_all_and_update 0 6 (some 123456789) 777 =
      (Except.error (NegativeMultiDecision.InsufficientCapacity 5),
        some 123456789) :=
  (test_n_all_insufficient_capacity (Gcra.new ⟨1000000000, 5⟩) 0 777
    (some 123456789) 6 (by decide)).trans (by rfl)

/-- C4: for a key with no stored entry the decision operations synthesize
the starting state `tat = now_elapsed + t`; the computed `earliest_time`
saturates at zero (for the fresh key at elapsed time 0 it is exactly 0),
and a freshly-unseen key's single-cell request at `now = start`
(elapsed time 0) succeeds for every quota with `max_burst ≥ 1`. -/
theorem fresh_key_first_cell (q : Quota) (start : Nat)
    (h : 1 ≤ q.max_burst) :
    (Gcra.new q).starting_state (Instant.duration_since start start) =
        Instant.duration_since start start + (Gcra.new q).t ∧
    Nanos.saturating_sub
        ((Gcra.new q).starting_state (Instant.duration_since start start))
        (Gcra.new q).tau = 0 ∧
    (Gcra.new q).test_and_update start none start =
      (Except.ok (), some ((Gcra.new q).t + (Gcra.new q).t)) := by
  have ht : q.replenish_1_per ≤ q.replenish_1_per * q.max_burst :=
    Nat.le_mul_of_pos_right _ h
  refine ⟨rfl, ?_, ?_⟩
  · show (start - start + q.replenish_1_per) - q.replenish_1_per * q.max_burst = 0
    omega
  · rw [test_and_update_eq]
    simp only [Gcra.new, Gcra.starting_state, Instant.duration_since,
      Nanos.saturating_sub, Option.getD_none, Nat.sub_self, Nat.zero_add]
    split
    · rename_i hcond
      exact absurd hcond (by omega)
    · rw [Nat.max_zero]

/-- Witness for C4: quota `t = 1s`, `max_burst = 1`; the first single-cell
request of an unseen key at `now = start = 7` succeeds and installs
`tat = 2s`. -/
theorem fresh_key_first_cell_witness :
    (Gcra.new ⟨1000000000, 1⟩).test_and_update 7 none 7 =
      (Except.ok (), some 2000000000) :=
  ((fresh_key_first_cell ⟨1000000000, 1⟩ 7 (by decide)).2.2).trans (by rfl)

/-- C5 counterexample: for quota `t = 1s`, `max_burst = 5` (`tau = 5s`),
an unseen key and `n = 5` at elapsed time 0, the installed state is `6s`,
not `now_elapsed + 5s = 5s` as the claim states; and the subsequent
single-cell test at the same instant is rejected with
`earliest_time = 1s`, not `now_elapsed = 0`. -/
theorem batch_fill_counterexample :
    ((Gcra.new ⟨1000000000, 5⟩).test_n_all_and_update 0 5 none 0).2 ≠
        some (0 + 5000000000) ∧
    ((Gcra.new ⟨1000000000, 5⟩).test_n_all_and_update 0 5 none 0).2 =
        some 6000000000 ∧
    ((Gcra.new ⟨1000000000, 5⟩).test_and_update 0 (some 6000000000) 0).1 =
      Except.error { limiter := Gcra.new ⟨1000000000, 5⟩
                     tat := 1000000000
                     start := 0 } ∧
    (1000000000 : Nat) ≠ 0 :=
  ⟨by decide, by rfl, by rfl, by decide⟩

/-- Helper for the amended C5, with the cell weight `tv` kept symbolic so
that the arithmetic avoids literal-sized kernel reductions: filling a
5-burst bucket from the unseen state installs `now_elapsed + 6·tv`, and
the next single cell at the same instant is rejected with earliest time
`now_elapsed + tv`. -/
theorem batch_fill_core (tv s k : Nat) (htv : 1 ≤ tv) :
    (Gcra.mk tv (tv * 5)).test_n_all_and_update s 5 none k =
      (Except.ok (), some (Instant.duration_since k s + tv * 6)) ∧
    (Gcra.mk tv (tv * 5)).test_and_update s
        (some (Instant.duration_since k s + tv * 6)) k =
      (Except.error { limiter := Gcra.mk tv (tv * 5)
                      tat := Instant.duration_since k s + tv
                      start := s },
        some (Instant.duration_since k s + tv * 6)) := by
  constructor
  · rw [test_n_all_and_update_eq _ _ _ _ _
      (by show tv * (5 - 1) + tv ≤ tv * 5; omega)]
    simp only [Gcra.starting_state, Instant.duration_since,
      Nanos.saturating_sub, Option.getD_none]
    split
    · rename_i hcond
      exact absurd hcond (by omega)
    · refine congrArg (Prod.mk (Except.ok ())) (congrArg some ?_)
      omega
  · rw [test_and_update_eq]
    simp only [Gcra.starting_state, Instant.duration_since,
      Nanos.saturating_sub, Option.getD_some]
    split
    · have htat : k - s + tv * 6 - tv * 5 = k - s + tv := by omega
      rw [htat]
    · rename_i hcond
      exact absurd (by omega) hcond

/-- C5 (amended): for quota `t = 1s`, `max_burst = 5` and an unseen key, a
batch request of `n = 5` cells succeeds and installs
`tat = now_elapsed + 6s` (the synthesized starting state `now_elapsed + t`
already charges one cell and all five batch cells are charged on top of
it), and a subsequent single-cell test at the same instant fails as
temporarily-non-conforming with `earliest_time = now_elapsed + 1s`. -/
theorem batch_fill_then_single_rejects (start now : Nat) :
    (Gcra.new ⟨1000000000, 5⟩).test_n_all_and_update start 5 none now =
      (Except.ok (), some (Instant.duration_since now start + 6000000000)) ∧
    (Gcra.new ⟨1000000000, 5⟩).test_and_update start
        (some (Instant.duration_since now start + 6000000000)) now =
      (Except.error { limiter := Gcra.new ⟨1000000000, 5⟩
                      tat := Instant.duration_since now start + 1000000000
                      start := start },
        some (Instant.duration_since now start + 6000000000)) := by
  have hg : Gcra.new ⟨1000000000, 5⟩ = Gcra.mk 1000000000 (1000000000 * 5) := rfl
  have h6 : (1000000000 : Nat) * 6 = 6000000000 := by norm_num
  rw [hg, ← h6]
  exact batch_fill_core 1000000000 start now (by omega)

/-- C6: the stored `tat` never decreases: a conforming decision (single or
batch) installs a value at least as large as the `tat` it read, and a
non-conforming decision leaves the stored state untouched. -/
theorem tat_never_decreases (g : Gcra) (start now : Nat) (v : Nat)
    (n : Nat) :
    (((g.test_and_update start (some v) now).1.isOk = true ∧
        (g.test_and_update start (some v) now).2 =
          some (max v (Instant.duration_since now start) + g.t) ∧
        v ≤ max v (Instant.duration_since now start) + g.t) ∨
      ((g.test_and_update start (some v) now).1.isOk = false ∧
        (g.test_and_update start (some v) now).2 = some v)) ∧
    (((g.test_n_all_and_update start n (some v) now).1.isOk = true ∧
        (g.test_n_all_and_update start n (some v) now).2 =
          some (max v (Instant.duration_since now start) + g.t + g.t * (n - 1)) ∧
        v ≤ max v (Instant.duration_since now start) + g.t + g.t * (n - 1)) ∨
      ((g.test_n_all_and_update start n (some v) now).1.isOk = false ∧
        (g.test_n_all_and_update start n (some v) now).2 = some v)) := by
  constructor
  · rw [test_and_update_eq]
    by_cases hc : Instant.duration_since now start <
        Nanos.saturating_sub
          ((some v).getD (g.starting_state (Instant.duration_since now start))) g.tau
    · rw [if_pos hc]
      right
      exact ⟨rfl, rfl⟩
    · rw [if_neg hc]
      left
      refine ⟨rfl, ?_, ?_⟩
      · rw [Option.getD_some]
      · omega
  · by_cases hg : g.tau < g.t * (n - 1) + g.t
    · rw [test_n_all_and_update_guard_eq _ _ _ _ _ hg]
      right
      exact ⟨rfl, rfl⟩
    · rw [test_n_all_and_update_eq _ _ _ _ _ (le_of_not_lt hg)]
      by_cases hc : Instant.duration_since now start <
          Nanos.saturating_sub
            ((some v).getD (g.starting_state (Instant.duration_since now start)) +
              g.t * (n - 1)) g.tau
      · rw [if_pos hc]
        right
        exact ⟨rfl, rfl⟩
      · rw [if_neg hc]
        left
        refine ⟨rfl, ?_, ?_⟩
        · rw [Option.getD_some]
        · omega

/-- C7: for every negative-decision value, `earliest_possible` is
`start + tat` (the reference origin plus the stored earliest time), and
`wait_time_from fr` is `earliest_possible - fr` when `fr` is before the
earliest possible instant and exactly zero otherwise; the result is a
`Nat` duration and so is never negative. -/
theorem wait_time_from_spec (nu : NotUntil) (fr : Nat) :
    nu.earliest_possible = nu.start + nu.tat ∧
    nu.wait_time_from fr =
      (if fr < nu.earliest_possible then nu.earliest_possible - fr else 0) := by
  refine ⟨rfl, ?_⟩
  simp only [NotUntil.wait_time_from, Instant.duration_since]
  split <;> omega

/-- C8: rejection timing is deterministic: if a single-cell call on stored
state `v` is rejected with `e`, the stored state is unchanged, and a
second call at the same `now` on the post-call state is rejected with the
identical negative decision `e` (hence identical `earliest_time`). -/
theorem rejection_idempotent (g : Gcra) (start now : Nat) (v : Nat)
    (e : NotUntil)
    (h : (g.test_and_update start (some v) now).1 = Except.error e) :
    (g.test_and_update start (some v) now).2 = some v ∧
    (g.test_and_update start ((g.test_and_update start (some v) now).2) now).1 =
      Except.error e := by
  rw [test_and_update_eq] at h
  by_cases hc : Instant.duration_since now start <
      Nanos.saturating_sub
        ((some v).getD (g.starting_state (Instant.duration_since now start))) g.tau
  · rw [if_pos hc] at h
    have h2 : (g.test_and_update start (some v) now).2 = some v := by
      rw [test_and_update_eq, if_pos hc]
    refine ⟨h2, ?_⟩
    rw [h2, test_and_update_eq, if_pos hc]
    exact h
  · rw [if_neg hc] at h
    exact Except.noConfusion h

/-- Witness for C8: `t = 1s`, `tau = 1s`, stored `tat = 3s`, at elapsed
time 0 the call is rejected with `earliest_time = 2s`; the stored state is
unchanged and the repeated call returns the identical rejection. -/
theorem rejection_idempotent_witness :
    ((Gcra.mk 1000000000 1000000000).test_and_update 0 (some 3000000000) 0).2 =
        some 3000000000 ∧
    ((Gcra.mk 1000000000 1000000000).test_and_update 0
        (((Gcra.mk 1000000000 1000000000).test_and_update 0
          (some 3000000000) 0).2) 0).1 =
      Except.error { limiter := Gcra.mk 1000000000 1000000000
                     tat := 2000000000
                     start := 0 } :=
  rejection_idempotent (Gcra.mk 1000000000 1000000000) 0 0 3000000000
    { limiter := Gcra.mk 1000000000 1000000000, tat := 2000000000, start := 0 }
    (by rfl)

/-- C9: for `n = 1` the batch test is equivalent to the single-cell test
on every input (for an engine built from a quota with `max_burst ≥ 1`, so
the capacity guard never fires): same verdict, same installed state, and a
rejection wraps the identical single-cell negative decision in the
batch-non-conforming variant with count 1. -/
theorem test_n_one_equiv (q : Quota) (start now : Nat)
    (stored : Option Nat) (h : 1 ≤ q.max_burst) :
    (Gcra.new q).test_n_all_and_update start 1 stored now =
      (match (Gcra.new q).test_and_update start stored now with
       | (Except.ok _, s) => (Except.ok (), s)
       | (Except.error nu, s) =>
         (Except.error (NegativeMultiDecision.BatchNonConforming 1 nu), s)) := by
  have hcap : (Gcra.new q).t * (1 - 1) + (Gcra.new q).t ≤ (Gcra.new q).tau := by
    show q.replenish_1_per * (1 - 1) + q.replenish_1_per ≤
      q.replenish_1_per * q.max_burst
    have h2 := Nat.le_mul_of_pos_right q.replenish_1_per h
    omega
  rw [test_n_all_and_update_eq _ _ _ _ _ hcap, test_and_update_eq]
  simp only [Nat.sub_self, Nat.mul_zero, Nat.add_zero]
  by_cases hc : Instant.duration_since now start <
      Nanos.saturating_sub
        (stored.getD ((Gcra.new q).starting_state (Instant.duration_since now start)))
        (Gcra.new q).tau
  · rw [if_pos hc, if_pos hc]
  · rw [if_neg hc, if_neg hc]

/-- Witness for C9: quota `t = 5`, `max_burst = 2` with stored `tat = 100`
at elapsed time 0: both the `n = 1` batch call and the single-cell call
reject with `earliest_time = 90`, the batch one wrapping the single-cell
decision with count 1, and neither mutates the stored state. -/
theorem test_n_one_equiv_witness :
    (Gcra.new ⟨5, 2⟩).test_n_all_and_update 0 1 (some 100) 0 =
      (Except.error (NegativeMultiDecision.BatchNonConforming 1
        { limiter := Gcra.new ⟨5, 2⟩, tat := 90, start := 0 }), some 100) :=
  (test_n_one_equiv ⟨5, 2⟩ 0 0 (some 100) (by decide)).trans (by rfl)

/-- C10: bounded backlog: every state installed by a conforming decision
(single-cell or batch, synthesized starting state included) is at most
`now_elapsed + tau + t`. -/
theorem bounded_backlog (g : Gcra) (start now : Nat) (stored : Option Nat)
    (n : Nat) (w : Nat) :
    ((g.test_and_update start stored now).1.isOk = true →
      (g.test_and_update start stored now).2 = some w →
      w ≤ Instant.duration_since now start + g.tau + g.t) ∧
    ((g.test_n_all_and_update start n stored now).1.isOk = true →
      (g.test_n_all_and_update start n stored now).2 = some w →
      w ≤ Instant.duration_since now start + g.tau + g.t) := by
  constructor
  · intro hok hw
    rw [test_and_update_eq] at hok hw
    by_cases hc : Instant.duration_since now start <
        Nanos.saturating_sub
          (stored.getD (g.starting_state (Instant.duration_since now start))) g.tau
    · rw [if_pos hc] at hok
      exact Bool.noConfusion hok
    · rw [if_neg hc] at hw
      injection hw with hw2
      simp only [Nanos.saturating_sub] at hc
      omega
  · intro hok hw
    by_cases hg : g.tau < g.t * (n - 1) + g.t
    · rw [test_n_all_and_update_guard_eq _ _ _ _ _ hg] at hok
      exact Bool.noConfusion hok
    · rw [test_n_all_and_update_eq _ _ _ _ _ (le_of_not_lt hg)] at hok hw
      by_cases hc : Instant.duration_since now start <
          Nanos.saturating_sub
            (stored.getD (g.starting_state (Instant.duration_since now start)) +
              g.t * (n - 1)) g.tau
      · rw [if_pos hc] at hok
        exact Bool.noConfusion hok
      · rw [if_neg hc] at hw
        injection hw with hw2
        simp only [Nanos.saturating_sub] at hc
        have hcap : g.t * (n - 1) + g.t ≤ g.tau := le_of_not_lt hg
        omega

/-- Witness for C10: with `t = 1`, `tau = 2`, an unseen key at elapsed
time 0, the single-cell admission installs `2 ≤ 0 + 2 + 1`. -/
theorem bounded_backlog_witness :
    (2 : Nat) ≤ Instant.duration_since 0 0 + (Gcra.mk 1 2).tau + (Gcra.mk 1 2).t :=
  (bounded_backlog (Gcra.mk 1 2) 0 0 none 1 2).1 (by rfl) (by rfl)

end Governor
